import Mathlib

/-!
Shallow embedding of the Iroha node core (files `src/iroha/src/lib.rs` and
`src/iroha/src/torii.rs`) together with proofs about the specified behaviour
of Torii request handling, orchestrator start-up, the round driver, the
block applier and `Id` parsing.

Conventions of the embedding:
* byte strings are `List Nat`;
* Rust `Result<A, String>` is `Except String A`;
* an async handler that can panic is modelled by the `Outcome` type, which
  separates a returned `Result` from a panic with its message;
* the wire codec, the transaction type, the query machinery, the consensus
  state machine (Sumeragi), the queue and the block store (Kura) live in
  modules that are external to the two embedded files; they are represented
  either by type parameters plus an environment of operations, or by small
  structures whose doc comments say they are modelled from the spec.
-/

set_option autoImplicit false

/-- Byte strings of the wire protocol. -/
abbrev Bytes := List Nat

/-- Response type of the `iroha_network` collaborator, as the spec fixes it:
`{Ok(bytes), EmptyOk, InternalError}`. -/
inductive Response where
  | Ok (data : Bytes)
  | EmptyOk
  | InternalError
deriving DecidableEq, Repr

/-- A network request: `(uri: string, payload: bytes)`. -/
structure Request where
  url : String
  payload : Bytes
deriving DecidableEq, Repr

/-- Outcome of running a handler body that can either return a
`Result<Response, String>` or panic with a message. -/
inductive Outcome where
  | ret (r : Except String Response)
  | panic (msg : String)
deriving Repr

namespace uri

/-- URI of query requests (`torii.rs`, `pub mod uri`). -/
def QUERY_URI : String := "/query"

/-- URI of transaction submissions (`torii.rs`, `pub mod uri`). -/
def INSTRUCTIONS_URI : String := "/instruction"

/-- URI of peer consensus messages (`torii.rs`, `pub mod uri`). -/
def BLOCKS_URI : String := "/block"

end uri

/-- Operations of Torii's collaborators: the codec (`TryFrom<Vec<u8>>` of
`Transaction`, `QueryRequest` and `Message`), transaction acceptance
(`Transaction::accept`), query evaluation (`Query::execute`, which takes the
world state view by shared reference) and query-result encoding
(`&QueryResult → Vec<u8>`). These live outside the two embedded source
files, so they are kept abstract as an environment. -/
structure ToriiEnv (Tx Qr Msg QRes Wsv : Type) where
  tryFromTransaction : Bytes → Except String Tx
  tryFromQueryRequest : Bytes → Except String Qr
  tryFromMessage : Bytes → Except String Msg
  accept : Tx → Except String Tx
  execute : Qr → Wsv → Except String QRes
  encodeResult : QRes → Bytes

/-- State reachable from a Torii request handler: the shared world state view
and the two unbounded channels (transaction sender, message sender). A
channel is a queue of sent items plus an open flag; `start_send` on a closed
channel fails. -/
structure ToriiState (Tx Msg Wsv : Type) where
  world_state_view : Wsv
  transaction_channel : List Tx
  transaction_channel_open : Bool
  message_channel : List Msg
  message_channel_open : Bool
deriving Repr

/-- Model of `start_send` on the transaction channel: enqueue when the
receiver is still alive, otherwise the `SendError` that the handler maps to
a `String`. -/
def ToriiState.send_transaction {Tx Msg Wsv : Type} (st : ToriiState Tx Msg Wsv)
    (t : Tx) : Except String (ToriiState Tx Msg Wsv) :=
  if st.transaction_channel_open then
    Except.ok { st with transaction_channel := st.transaction_channel ++ [t] }
  else
    Except.error "send failed: channel closed"

/-- Model of `start_send` on the message channel. -/
def ToriiState.send_message {Tx Msg Wsv : Type} (st : ToriiState Tx Msg Wsv)
    (m : Msg) : Except String (ToriiState Tx Msg Wsv) :=
  if st.message_channel_open then
    Except.ok { st with message_channel := st.message_channel ++ [m] }
  else
    Except.error "send failed: channel closed"

/-- Embedding of `handle_request` (`torii.rs`, lines 71-128). Returns the
outcome (returned `Result` or panic), the state after the call and the list
of `eprintln!` log lines, in order. The `match request.url()` on string
literal patterns is an if-chain over the three URI constants; the final
arm `panic!("URI not supported: {}.", ...)` is the `Outcome.panic` case,
and `transaction.accept().expect("Failed to accept transaction.")` panics
with its `expect` message when acceptance fails. -/
def handle_request {Tx Qr Msg QRes Wsv : Type} (env : ToriiEnv Tx Qr Msg QRes Wsv)
    (st : ToriiState Tx Msg Wsv) (request : Request) :
    Outcome × ToriiState Tx Msg Wsv × List String :=
  if request.url = uri.INSTRUCTIONS_URI then
    match env.tryFromTransaction request.payload with
    | Except.ok transaction =>
      match env.accept transaction with
      | Except.ok accepted =>
        match st.send_transaction accepted with
        | Except.ok st1 => (Outcome.ret (Except.ok Response.EmptyOk), st1, [])
        | Except.error e => (Outcome.ret (Except.error e), st, [])
      | Except.error _ => (Outcome.panic "Failed to accept transaction.", st, [])
    | Except.error e =>
      (Outcome.ret (Except.ok Response.InternalError), st,
        ["Failed to decode transaction: " ++ e])
  else if request.url = uri.QUERY_URI then
    match env.tryFromQueryRequest request.payload with
    | Except.ok query_request =>
      match env.execute query_request st.world_state_view with
      | Except.ok result =>
        (Outcome.ret (Except.ok (Response.Ok (env.encodeResult result))), st, [])
      | Except.error e =>
        (Outcome.ret (Except.ok Response.InternalError), st, [e])
    | Except.error e =>
      (Outcome.ret (Except.ok Response.InternalError), st,
        ["Failed to decode transaction: " ++ e])
  else if request.url = uri.BLOCKS_URI then
    match env.tryFromMessage request.payload with
    | Except.ok message =>
      match st.send_message message with
      | Except.ok st1 => (Outcome.ret (Except.ok Response.EmptyOk), st1, [])
      | Except.error e => (Outcome.ret (Except.error e), st, [])
    | Except.error e =>
      (Outcome.ret (Except.ok Response.InternalError), st,
        ["Failed to decode peer message: " ++ e])
  else
    (Outcome.panic ("URI not supported: " ++ request.url ++ "."), st, [])

/-- Public keys are opaque byte arrays of the crypto collaborator. -/
abbrev PublicKey := List Nat

/-- Private keys are opaque byte arrays of the crypto collaborator. -/
abbrev PrivateKey := List Nat

/-- Hashes are opaque byte arrays of the crypto collaborator. -/
abbrev Hash := List Nat

/-- Signatures are opaque byte arrays of the crypto collaborator. -/
abbrev Signature := List Nat

/-- Peer identity: `(address: string, public_key: PublicKey)`. -/
structure PeerId where
  address : String
  public_key : PublicKey
deriving DecidableEq, Repr

/-- Kura operating mode, `mode ∈ {Strict, Fast}`. -/
inductive Mode where
  | Strict
  | Fast
deriving DecidableEq, Repr

/-- Configuration fields used by `Iroha::new` (the loader itself is the
external `config` module; the fields are the ones the spec enumerates). -/
structure Configuration where
  torii_url : String
  kura_block_store_path : String
  mode : Mode
  public_key : PublicKey
  private_key : PrivateKey
  trusted_peers : Option (List PeerId)
  max_faulty_peers : Nat
deriving DecidableEq, Repr

/-- Modelled from the spec: `Configuration::key_pair` lives in the external
`config` module; per the configuration section it hands back the configured
`public_key` and `private_key`. -/
def Configuration.key_pair (config : Configuration) : PublicKey × PrivateKey :=
  (config.public_key, config.private_key)

/-- The pieces of `Iroha::new` (`lib.rs`, lines 60-117) that the claims are
about: the world state view is seeded with a peer at the torii url, and
Sumeragi receives a peer set and this node's own id. -/
structure IrohaModel where
  wsv_peer_address : String
  iroha_peer_id : PeerId
  sumeragi_peers : List PeerId
deriving DecidableEq, Repr

/-- Embedding of `Iroha::new` (`lib.rs`, lines 60-117), restricted to the
data it wires together: `iroha_peer_id` is built from `config.torii_url` and
the public key of `config.key_pair()`, and the peer set passed to
`Sumeragi::new` is `config.trusted_peers` when present, otherwise the
singleton `[iroha_peer_id]`. -/
def Iroha.new (config : Configuration) : IrohaModel :=
  let key_pair := config.key_pair
  let public_key := key_pair.1
  let iroha_peer_id : PeerId := { address := config.torii_url, public_key := public_key }
  let peers : List PeerId :=
    match config.trusted_peers with
    | some peers => peers
    | none => [iroha_peer_id]
  { wsv_peer_address := config.torii_url
    iroha_peer_id := iroha_peer_id
    sumeragi_peers := peers }

/-- Modelled from the spec: a pending transaction as the round driver sees
it. The `tx` module is external; `as_requested().into()` turns an accepted
transaction back into the encoded requested form, carried here as the
`requested_bytes` field. -/
structure Transaction where
  requested_bytes : Bytes
deriving DecidableEq, Repr

/-- Modelled from the spec: Sumeragi's per-round roles. -/
inductive Role where
  | Leader
  | ValidatingPeer
  | ProxyTail
  | ObservingPeer
deriving DecidableEq, Repr

/-- Modelled from the spec: the observations of Sumeragi that the round
driver makes through its mutex — `has_pending_block()`, `role()` and
`leader()`. The state machine itself is the external `sumeragi` module. -/
structure Sumeragi where
  has_pending_block : Bool
  role : Role
  leader : PeerId
deriving DecidableEq, Repr

/-- Effects the round driver can emit during one loop iteration. -/
inductive RoundAction where
  | validate_and_store (transactions : List Transaction)
  | send_request (address : String) (url : String) (payload : Bytes)
deriving DecidableEq, Repr

/-- State touched by the round-driver task. `queue` models the pending
transaction queue (spec: `pop_pending() ` drains all buffered transactions
in FIFO order); `last_round_time` is an instant, modelled as a number. -/
structure RoundState where
  queue : List Transaction
  sumeragi : Sumeragi
  last_round_time : Nat
deriving DecidableEq, Repr

/-- Embedding of one iteration of the round-driver loop (`lib.rs`, lines
138-173). When `has_pending_block()` holds, nothing happens. Otherwise the
queue is drained; when the drained list is nonempty, the leader path emits a
`validate_and_store` effect while every other role sends each popped
transaction to the leader as a network request to `uri::INSTRUCTIONS_URI`
with the transaction's `as_requested().into()` payload (the responses are
bound to `_response` and dropped), and `last_round_time` is reset to now. -/
def round_step (now : Nat) (s : RoundState) : RoundState × List RoundAction :=
  if s.sumeragi.has_pending_block then
    (s, [])
  else
    let transactions := s.queue
    let s1 : RoundState := { s with queue := [] }
    if transactions.isEmpty then
      (s1, [])
    else
      match s1.sumeragi.role with
      | Role.Leader =>
        ({ s1 with last_round_time := now },
          [RoundAction.validate_and_store transactions])
      | _ =>
        ({ s1 with last_round_time := now },
          transactions.map (fun transaction =>
            RoundAction.send_request s1.sumeragi.leader.address
              uri.INSTRUCTIONS_URI transaction.requested_bytes))

/-- Modelled from the spec: a block. The `block` module is external; the
spec gives its attributes. Only `height` matters to the ordering claims. -/
structure Block where
  height : Nat
  previous_block_hash : Hash
  merkle_root : Hash
  timestamp : Nat
  transactions : List Transaction
  signatures : List Signature
deriving DecidableEq, Repr

/-- Embedding of the block-applier task (`lib.rs`, lines 176-180): a single
loop that receives blocks sequentially from the one block channel and calls
`world_state_view.put(&block)` on each. Applied to the list of blocks the
channel delivers, it returns the final world state view together with the
trace of blocks in the order `put` was called on them. `put` itself lives
in the external `wsv` module and is a parameter. -/
def block_applier {Wsv : Type} (put : Wsv → Block → Wsv) :
    List Block → Wsv → Wsv × List Block
  | [], wsv => (wsv, [])
  | b :: rest, wsv =>
    let wsv1 := put wsv b
    let (w, trace) := block_applier put rest wsv1
    (w, b :: trace)

/-- Rust's `str::split('@')` on a string viewed as its character list:
splits at every separator, keeping empty pieces, and yields at least one
piece. -/
def split_char (c : Char) : List Char → List (List Char)
  | [] => [[]]
  | x :: xs =>
    if x = c then
      [] :: split_char c xs
    else
      match split_char c xs with
      | h :: t => (x :: h) :: t
      | [] => [x] :: []

namespace Iroha

/-- Identification of an Iroha entity (`lib.rs`, lines 201-205); names are
modelled as character lists. -/
structure Id where
  entity_name : List Char
  domain_name : List Char
deriving DecidableEq, Repr

/-- Embedding of `Id::new` (`lib.rs`, lines 207-214): stores both names
verbatim, with no validation. -/
def Id.new (entity_name : List Char) (domain_name : List Char) : Id :=
  { entity_name := entity_name, domain_name := domain_name }

/-- Embedding of `impl From<&str> for Id` (`lib.rs`, lines 216-224): collect
`string.split('@')` into a vector and index elements 0 and 1. `none` models
the index-out-of-bounds panic of `vector[1]` when the split yields fewer
than two pieces; any pieces beyond the second are dropped. -/
def Id.from_string (string : List Char) : Option Id :=
  match split_char '@' string with
  | e :: d :: _ => some { entity_name := e, domain_name := d }
  | _ => none

end Iroha

/-- A collaborator environment over trivial payload types in which every
decoder fails; exercises the decode-failure paths of `handle_request`. -/
def envDecodeFail : ToriiEnv Unit Unit Unit Unit Unit :=
  { tryFromTransaction := fun _ => Except.error "unexpected byte"
    tryFromQueryRequest := fun _ => Except.error "unexpected byte"
    tryFromMessage := fun _ => Except.error "unexpected byte"
    accept := fun t => Except.ok t
    execute := fun _ _ => Except.ok ()
    encodeResult := fun _ => [] }

/-- A collaborator environment in which decoding succeeds but transaction
acceptance fails, as it does for a bad signature or a stale timestamp. -/
def envAcceptFail : ToriiEnv Unit Unit Unit Unit Unit :=
  { tryFromTransaction := fun _ => Except.ok ()
    tryFromQueryRequest := fun _ => Except.ok ()
    tryFromMessage := fun _ => Except.ok ()
    accept := fun _ => Except.error "signature verification failed"
    execute := fun _ _ => Except.ok ()
    encodeResult := fun _ => [] }

/-- A collaborator environment in which every operation succeeds. -/
def envAllOk : ToriiEnv Unit Unit Unit Unit Unit :=
  { tryFromTransaction := fun _ => Except.ok ()
    tryFromQueryRequest := fun _ => Except.ok ()
    tryFromMessage := fun _ => Except.ok ()
    accept := fun t => Except.ok t
    execute := fun _ _ => Except.ok ()
    encodeResult := fun _ => [7] }

/-- A collaborator environment whose query evaluation fails. -/
def envQueryFail : ToriiEnv Unit Unit Unit Unit Unit :=
  { tryFromTransaction := fun _ => Except.ok ()
    tryFromQueryRequest := fun _ => Except.ok ()
    tryFromMessage := fun _ => Except.ok ()
    accept := fun t => Except.ok t
    execute := fun _ _ => Except.error "no such domain"
    encodeResult := fun _ => [] }

/-- A Torii state whose channels are both open and empty. -/
def stOpen : ToriiState Unit Unit Unit :=
  { world_state_view := ()
    transaction_channel := []
    transaction_channel_open := true
    message_channel := []
    message_channel_open := true }

/-- A Sumeragi observation for a non-leader node with no pending block. -/
def sumObserving : Sumeragi :=
  { has_pending_block := false
    role := Role.ObservingPeer
    leader := { address := "leader-address", public_key := [1] } }

/-- Round-driver state of a non-leader node holding one pending transaction. -/
def roundStateObserving : RoundState :=
  { queue := [{ requested_bytes := [3] }]
    sumeragi := sumObserving
    last_round_time := 0 }

/-- Round-driver state with a block currently in discussion. -/
def roundStatePending : RoundState :=
  { queue := [{ requested_bytes := [3] }]
    sumeragi := { sumObserving with has_pending_block := true }
    last_round_time := 0 }

/-- A configuration without trusted peers. -/
def configNoPeers : Configuration :=
  { torii_url := "127.0.0.1:1337"
    kura_block_store_path := "./blocks"
    mode := Mode.Strict
    public_key := [1, 2]
    private_key := [3, 4]
    trusted_peers := none
    max_faulty_peers := 0 }

/-- A configuration with an explicit trusted peer list. -/
def configWithPeers : Configuration :=
  { configNoPeers with
      trusted_peers := some [{ address := "127.0.0.1:1338", public_key := [5] }] }

/-- A block at a given height with empty body, for concrete instances. -/
def blockAt (height : Nat) : Block :=
  { height := height
    previous_block_hash := []
    merkle_root := []
    timestamp := 0
    transactions := []
    signatures := [] }

/-- Characterization of `split_char`: the first piece is the longest
separator-free prefix, and when the separator occurs, the remaining pieces
are the split of what follows its first occurrence. -/
theorem split_char_eq (c : Char) (xs : List Char) :
    split_char c xs =
      xs.takeWhile (fun ch => ch != c) ::
        (if c ∈ xs then split_char c ((xs.dropWhile (fun ch => ch != c)).tail) else []) := by
  induction xs with
  | nil => simp [split_char]
  | cons x xs ih =>
    by_cases hx : x = c
    · subst hx
      simp [split_char, List.takeWhile_cons, List.dropWhile_cons]
    · have hcx : ¬c = x := fun h => hx h.symm
      simp [split_char, ih, List.takeWhile_cons, List.dropWhile_cons, hx, hcx]

/-- The block applier returns the left fold of `put` and its trace is the
received list itself: `put` is called on each block in receive order. -/
theorem block_applier_spec {Wsv : Type} (put : Wsv → Block → Wsv)
    (received : List Block) (wsv : Wsv) :
    block_applier put received wsv = (received.foldl put wsv, received) := by
  induction received generalizing wsv with
  | nil => rfl
  | cons b rest ih => simp [block_applier, ih]

/-- A successful `start_send` on the transaction channel only appends to the
channel; the world state view is untouched. -/
theorem send_transaction_wsv {Tx Msg Wsv : Type} (st : ToriiState Tx Msg Wsv)
    (t : Tx) (st1 : ToriiState Tx Msg Wsv)
    (h : st.send_transaction t = Except.ok st1) :
    st1.world_state_view = st.world_state_view := by
  unfold ToriiState.send_transaction at h
  split at h
  · injection h with h1
    subst h1
    rfl
  · simp at h

/-- A successful `start_send` on the message channel only appends to the
channel; the world state view is untouched. -/
theorem send_message_wsv {Tx Msg Wsv : Type} (st : ToriiState Tx Msg Wsv)
    (m : Msg) (st1 : ToriiState Tx Msg Wsv)
    (h : st.send_message m = Except.ok st1) :
    st1.world_state_view = st.world_state_view := by
  unfold ToriiState.send_message at h
  split at h
  · injection h with h1
    subst h1
    rfl
  · simp at h

/-- The request handler never changes the world state view component of the
Torii state, whichever branch it takes. -/
theorem handle_request_preserves_wsv {Tx Qr Msg QRes Wsv : Type}
    (env : ToriiEnv Tx Qr Msg QRes Wsv) (st : ToriiState Tx Msg Wsv)
    (request : Request) :
    (handle_request env st request).2.1.world_state_view = st.world_state_view := by
  unfold handle_request
  split
  · rcases henv : env.tryFromTransaction request.payload with e | transaction
    · simp [henv]
    · rcases hacc : env.accept transaction with e | accepted
      · simp [henv, hacc]
      · rcases hsend : st.send_transaction accepted with e | st1
        · simp [henv, hacc, hsend]
        · simp [henv, hacc, hsend, send_transaction_wsv st accepted st1 hsend]
  · split
    · rcases henv : env.tryFromQueryRequest request.payload with e | q
      · simp [henv]
      · rcases hex : env.execute q st.world_state_view with e | r <;> simp [henv, hex]
    · split
      · rcases henv : env.tryFromMessage request.payload with e | m
        · simp [henv]
        · rcases hsend : st.send_message m with e | st1
          · simp [henv, hsend]
          · simp [henv, hsend, send_message_wsv st m st1 hsend]
      · rfl

/-- C1: on each of the three served URIs, a payload that fails to decode
makes `handle_request` return the `InternalError` response with the state
unchanged and a logged failure; the outcome is a returned response, so the
handler neither panics nor terminates the node. -/
theorem claim_c1_decode_failure_internal_error
    {Tx Qr Msg QRes Wsv : Type} (env : ToriiEnv Tx Qr Msg QRes Wsv)
    (st : ToriiState Tx Msg Wsv) (request : Request) (e : String)
    (h : (request.url = uri.INSTRUCTIONS_URI ∧
            env.tryFromTransaction request.payload = Except.error e) ∨
         (request.url = uri.QUERY_URI ∧
            env.tryFromQueryRequest request.payload = Except.error e) ∨
         (request.url = uri.BLOCKS_URI ∧
            env.tryFromMessage request.payload = Except.error e)) :
    (handle_request env st request).1 = Outcome.ret (Except.ok Response.InternalError) ∧
    (handle_request env st request).2.1 = st ∧
    (handle_request env st request).2.2 ≠ [] := by
  rcases h with ⟨hurl, hdec⟩ | ⟨hurl, hdec⟩ | ⟨hurl, hdec⟩ <;>
    simp [handle_request, hurl, hdec, uri.INSTRUCTIONS_URI, uri.QUERY_URI, uri.BLOCKS_URI]

/-- C1 witness: a concrete undecodable submission on `/instruction` yields
`InternalError`, leaves the state alone and logs. -/
theorem claim_c1_witness :
    (handle_request envDecodeFail stOpen { url := "/instruction", payload := [0] }).1 =
      Outcome.ret (Except.ok Response.InternalError) ∧
    (handle_request envDecodeFail stOpen { url := "/instruction", payload := [0] }).2.1 =
      stOpen ∧
    (handle_request envDecodeFail stOpen { url := "/instruction", payload := [0] }).2.2 ≠ [] :=
  claim_c1_decode_failure_internal_error envDecodeFail stOpen
    { url := "/instruction", payload := [0] } "unexpected byte" (Or.inl ⟨rfl, rfl⟩)

/-- C2 counterexample: a transaction that decodes but fails the acceptance
check does not produce a caller-visible result value; `handle_request`
panics with the `expect` message of `transaction.accept()`. -/
theorem claim_c2_counterexample :
    envAcceptFail.tryFromTransaction [1] = Except.ok () ∧
    envAcceptFail.accept () = Except.error "signature verification failed" ∧
    (handle_request envAcceptFail stOpen { url := "/instruction", payload := [1] }).1 =
      Outcome.panic "Failed to accept transaction." :=
  ⟨rfl, rfl, rfl⟩

/-- C2 amended: on `/instruction`, a transaction that decodes successfully
but fails the Torii acceptance check makes the handler panic with
"Failed to accept transaction."; the rejection is never reported to the
caller as a result value. -/
theorem claim_c2_accept_failure_panics
    {Tx Qr Msg QRes Wsv : Type} (env : ToriiEnv Tx Qr Msg QRes Wsv)
    (st : ToriiState Tx Msg Wsv) (request : Request) (transaction : Tx) (e : String)
    (hurl : request.url = uri.INSTRUCTIONS_URI)
    (hdec : env.tryFromTransaction request.payload = Except.ok transaction)
    (hacc : env.accept transaction = Except.error e) :
    handle_request env st request =
      (Outcome.panic "Failed to accept transaction.", st, []) := by
  simp [handle_request, hurl, hdec, hacc]

/-- C2 witness: the amended statement at a concrete rejected transaction. -/
theorem claim_c2_witness :
    handle_request envAcceptFail stOpen { url := "/instruction", payload := [2] } =
      (Outcome.panic "Failed to accept transaction.", stOpen, []) :=
  claim_c2_accept_failure_panics envAcceptFail stOpen
    { url := "/instruction", payload := [2] } () "signature verification failed"
    rfl rfl rfl

/-- C3: a request whose URI is none of `/instruction`, `/query`, `/block`
makes `handle_request` panic with the unsupported-URI message instead of
returning any response. -/
theorem claim_c3_unknown_uri_panics
    {Tx Qr Msg QRes Wsv : Type} (env : ToriiEnv Tx Qr Msg QRes Wsv)
    (st : ToriiState Tx Msg Wsv) (request : Request)
    (h1 : request.url ≠ uri.INSTRUCTIONS_URI)
    (h2 : request.url ≠ uri.QUERY_URI)
    (h3 : request.url ≠ uri.BLOCKS_URI) :
    handle_request env st request =
      (Outcome.panic ("URI not supported: " ++ request.url ++ "."), st, []) := by
  simp [handle_request, h1, h2, h3]

/-- C3 witness: a concrete unknown URI panics. -/
theorem claim_c3_witness :
    handle_request envAllOk stOpen { url := "/unknown", payload := [] } =
      (Outcome.panic "URI not supported: /unknown.", stOpen, []) :=
  claim_c3_unknown_uri_panics envAllOk stOpen { url := "/unknown", payload := [] }
    (by decide) (by decide) (by decide)

/-- C4 counterexample: a handled request (URI `/instruction`) whose
transaction fails acceptance has a caller-visible outcome that is none of
the three response kinds — the handler panics and no response is
produced. -/
theorem claim_c4_counterexample :
    ({ url := "/instruction", payload := [3] } : Request).url = uri.INSTRUCTIONS_URI ∧
    (handle_request envAcceptFail stOpen { url := "/instruction", payload := [3] }).1 =
      Outcome.panic "Failed to accept transaction." :=
  ⟨rfl, rfl⟩

/-- C4 amended: every response a handled request returns is one of
`Ok(bytes)`, `EmptyOk`, `InternalError`; but a handled request can also end
without any response, either with an error result (a failed channel send)
or with the acceptance panic. -/
theorem claim_c4_handled_outcomes
    {Tx Qr Msg QRes Wsv : Type} (env : ToriiEnv Tx Qr Msg QRes Wsv)
    (st : ToriiState Tx Msg Wsv) (request : Request)
    (h : request.url = uri.INSTRUCTIONS_URI ∨ request.url = uri.QUERY_URI ∨
         request.url = uri.BLOCKS_URI) :
    (∃ data, (handle_request env st request).1 =
        Outcome.ret (Except.ok (Response.Ok data))) ∨
    (handle_request env st request).1 = Outcome.ret (Except.ok Response.EmptyOk) ∨
    (handle_request env st request).1 = Outcome.ret (Except.ok Response.InternalError) ∨
    (∃ e, (handle_request env st request).1 = Outcome.ret (Except.error e)) ∨
    (handle_request env st request).1 = Outcome.panic "Failed to accept transaction." := by
  rcases h with hurl | hurl | hurl
  · rcases hdec : env.tryFromTransaction request.payload with e | transaction
    · right; right; left
      simp [handle_request, hurl, hdec, uri.INSTRUCTIONS_URI]
    · rcases hacc : env.accept transaction with e | accepted
      · right; right; right; right
        simp [handle_request, hurl, hdec, hacc, uri.INSTRUCTIONS_URI]
      · rcases hsend : st.send_transaction accepted with e | st1
        · right; right; right; left
          exact ⟨e, by simp [handle_request, hurl, hdec, hacc, hsend, uri.INSTRUCTIONS_URI]⟩
        · right; left
          simp [handle_request, hurl, hdec, hacc, hsend, uri.INSTRUCTIONS_URI]
  · rcases hdec : env.tryFromQueryRequest request.payload with e | q
    · right; right; left
      simp [handle_request, hurl, hdec, uri.INSTRUCTIONS_URI, uri.QUERY_URI]
    · rcases hex : env.execute q st.world_state_view with e | r
      · right; right; left
        simp [handle_request, hurl, hdec, hex, uri.INSTRUCTIONS_URI, uri.QUERY_URI]
      · left
        exact ⟨env.encodeResult r,
          by simp [handle_request, hurl, hdec, hex, uri.INSTRUCTIONS_URI, uri.QUERY_URI]⟩
  · rcases hdec : env.tryFromMessage request.payload with e | m
    · right; right; left
      simp [handle_request, hurl, hdec,
        uri.INSTRUCTIONS_URI, uri.QUERY_URI, uri.BLOCKS_URI]
    · rcases hsend : st.send_message m with e | st1
      · right; right; right; left
        exact ⟨e, by simp [handle_request, hurl, hdec, hsend,
          uri.INSTRUCTIONS_URI, uri.QUERY_URI, uri.BLOCKS_URI]⟩
      · right; left
        simp [handle_request, hurl, hdec, hsend,
          uri.INSTRUCTIONS_URI, uri.QUERY_URI, uri.BLOCKS_URI]

/-- C4 witness: the amended enumeration at a concrete successful query. -/
theorem claim_c4_witness :
    (∃ data, (handle_request envAllOk stOpen { url := "/query", payload := [] }).1 =
        Outcome.ret (Except.ok (Response.Ok data))) ∨
    (handle_request envAllOk stOpen { url := "/query", payload := [] }).1 =
      Outcome.ret (Except.ok Response.EmptyOk) ∨
    (handle_request envAllOk stOpen { url := "/query", payload := [] }).1 =
      Outcome.ret (Except.ok Response.InternalError) ∨
    (∃ e, (handle_request envAllOk stOpen { url := "/query", payload := [] }).1 =
        Outcome.ret (Except.error e)) ∨
    (handle_request envAllOk stOpen { url := "/query", payload := [] }).1 =
      Outcome.panic "Failed to accept transaction." :=
  claim_c4_handled_outcomes envAllOk stOpen { url := "/query", payload := [] }
    (Or.inr (Or.inl rfl))

/-- C5: a `/query` request that decodes is evaluated synchronously against
the world state view held in the Torii state; success returns the encoded
query result, failure returns `InternalError`, and in both cases the state
(world state view included) is returned unchanged. -/
theorem claim_c5_query_execution
    {Tx Qr Msg QRes Wsv : Type} (env : ToriiEnv Tx Qr Msg QRes Wsv)
    (st : ToriiState Tx Msg Wsv) (request : Request) (q : Qr)
    (hurl : request.url = uri.QUERY_URI)
    (hdec : env.tryFromQueryRequest request.payload = Except.ok q) :
    (∀ result, env.execute q st.world_state_view = Except.ok result →
      handle_request env st request =
        (Outcome.ret (Except.ok (Response.Ok (env.encodeResult result))), st, [])) ∧
    (∀ e, env.execute q st.world_state_view = Except.error e →
      handle_request env st request =
        (Outcome.ret (Except.ok Response.InternalError), st, [e])) := by
  constructor
  · intro result hex
    simp [handle_request, hurl, hdec, hex, uri.INSTRUCTIONS_URI, uri.QUERY_URI]
  · intro e hex
    simp [handle_request, hurl, hdec, hex, uri.INSTRUCTIONS_URI, uri.QUERY_URI]

/-- C5 witness: the success arm and the failure arm at concrete queries. -/
theorem claim_c5_witness :
    handle_request envAllOk stOpen { url := "/query", payload := [4] } =
      (Outcome.ret (Except.ok (Response.Ok [7])), stOpen, []) ∧
    handle_request envQueryFail stOpen { url := "/query", payload := [4] } =
      (Outcome.ret (Except.ok Response.InternalError), stOpen, ["no such domain"]) :=
  ⟨(claim_c5_query_execution envAllOk stOpen { url := "/query", payload := [4] } ()
      rfl rfl).1 () rfl,
   (claim_c5_query_execution envQueryFail stOpen { url := "/query", payload := [4] } ()
      rfl rfl).2 "no such domain" rfl⟩

/-- C6: `Iroha::new` passes Sumeragi exactly the configured trusted peers
when they are present, and the one-element list holding this node's own
peer id (its torii address and public key) when they are absent. -/
theorem claim_c6_trusted_peers (config : Configuration) :
    (config.trusted_peers = none →
      (Iroha.new config).sumeragi_peers =
        [{ address := config.torii_url, public_key := config.public_key }]) ∧
    (∀ peers, config.trusted_peers = some peers →
      (Iroha.new config).sumeragi_peers = peers) := by
  constructor
  · intro h
    simp [Iroha.new, Configuration.key_pair, h]
  · intro peers h
    simp [Iroha.new, Configuration.key_pair, h]

/-- C6 witness: both arms at concrete configurations. -/
theorem claim_c6_witness :
    (Iroha.new configNoPeers).sumeragi_peers =
      [{ address := "127.0.0.1:1337", public_key := [1, 2] }] ∧
    (Iroha.new configWithPeers).sumeragi_peers =
      [{ address := "127.0.0.1:1338", public_key := [5] }] :=
  ⟨(claim_c6_trusted_peers configNoPeers).1 rfl,
   (claim_c6_trusted_peers configWithPeers).2 _ rfl⟩

/-- C7: while `has_pending_block()` holds, one iteration of the round-driver
loop leaves the whole round state (the queue included) unchanged and emits
no effect: no transactions are popped, proposed or forwarded. -/
theorem claim_c7_pending_block_gates_round (now : Nat) (s : RoundState)
    (h : s.sumeragi.has_pending_block = true) :
    round_step now s = (s, []) := by
  simp [round_step, h]

/-- C7 witness: the gate at a concrete state with a block in discussion. -/
theorem claim_c7_witness :
    round_step 9 roundStatePending = (roundStatePending, []) :=
  claim_c7_pending_block_gates_round 9 roundStatePending rfl

/-- C8 counterexample: on a non-leader node with one pending transaction,
the round driver forwards it to the leader's address as a network request
to `/instruction` — the transaction-submission endpoint — and not to
`/block`, the only endpoint on which peers receive consensus messages; so
the forward is not a `TransactionForwarded` consensus message. -/
theorem claim_c8_counterexample :
    (round_step 7 roundStateObserving).2 =
      [RoundAction.send_request "leader-address" uri.INSTRUCTIONS_URI [3]] ∧
    uri.INSTRUCTIONS_URI ≠ uri.BLOCKS_URI :=
  ⟨rfl, by decide⟩

/-- C8 amended: when a non-leader node with no pending block pops a
nonempty batch, every popped transaction is sent to the current leader's
address as a request to `uri::INSTRUCTIONS_URI` carrying the transaction's
`as_requested()` encoding, in queue order; the emitted sends carry no
response handling (fire-and-forget, no retry, no receipt), the queue is
drained and `last_round_time` is reset. -/
theorem claim_c8_forwarding (now : Nat) (s : RoundState)
    (hpend : s.sumeragi.has_pending_block = false)
    (hrole : s.sumeragi.role ≠ Role.Leader)
    (hne : s.queue ≠ []) :
    round_step now s =
      ({ s with queue := [], last_round_time := now },
        s.queue.map (fun transaction =>
          RoundAction.send_request s.sumeragi.leader.address uri.INSTRUCTIONS_URI
            transaction.requested_bytes)) := by
  unfold round_step
  rw [hpend]
  simp only [Bool.false_eq_true, if_false, List.isEmpty_eq_true, hne, if_false, hrole]

/-- C8 witness: the amended statement at the concrete observing node. -/
theorem claim_c8_witness :
    round_step 7 roundStateObserving =
      ({ roundStateObserving with queue := [], last_round_time := 7 },
        [RoundAction.send_request "leader-address" uri.INSTRUCTIONS_URI [3]]) :=
  claim_c8_forwarding 7 roundStateObserving rfl (by decide) (by decide)

/-- C9: the single block-applier task calls `put` on exactly the received
blocks in receive order (its trace is the received list and its result is
the left fold of `put`); under the hypothesis that the block channel
delivers blocks sorted by height, any block of lower height is applied
before any of higher height; and the request handler never changes the
world state view, so among the embedded tasks only block application
mutates it. -/
theorem claim_c9_blocks_applied_in_order {Wsv : Type} (put : Wsv → Block → Wsv)
    (received : List Block) (wsv : Wsv)
    (hsorted : received.Pairwise (fun a b => a.height < b.height)) :
    (block_applier put received wsv).2 = received ∧
    (block_applier put received wsv).1 = received.foldl put wsv ∧
    (∀ i j : Fin received.length, i < j →
      (received.get i).height < (received.get j).height) ∧
    (∀ (Tx Qr Msg QRes W : Type) (env : ToriiEnv Tx Qr Msg QRes W)
        (st : ToriiState Tx Msg W) (request : Request),
      (handle_request env st request).2.1.world_state_view = st.world_state_view) := by
  refine ⟨?_, ?_, ?_, ?_⟩
  · simp [block_applier_spec]
  · simp [block_applier_spec]
  · intro i j hij
    exact List.pairwise_iff_get.mp hsorted i j hij
  · intro Tx Qr Msg QRes W env st request
    exact handle_request_preserves_wsv env st request

/-- C9 witness: applying two height-sorted blocks with a `put` that records
the applied blocks yields exactly the received order. -/
theorem claim_c9_witness :
    List.Pairwise (fun a b : Block => a.height < b.height) [blockAt 0, blockAt 1] ∧
    (block_applier (fun (w : List Block) b => w ++ [b]) [blockAt 0, blockAt 1] []).2 =
      [blockAt 0, blockAt 1] ∧
    (block_applier (fun (w : List Block) b => w ++ [b]) [blockAt 0, blockAt 1] []).1 =
      [blockAt 0, blockAt 1] := by
  refine ⟨by decide, ?_, ?_⟩
  · exact (claim_c9_blocks_applied_in_order (fun w b => w ++ [b])
      [blockAt 0, blockAt 1] [] (by decide)).1
  · have h := (claim_c9_blocks_applied_in_order (fun w b => w ++ [b])
      [blockAt 0, blockAt 1] [] (by decide)).2.1
    simpa using h

/-- C10: `Id::from(&str)` is partial: when the input contains an `@`, it
returns the `Id` whose entity name is the text before the first `@` and
whose domain name is the text between the first and second `@` (anything
beyond is dropped); when the input contains no `@`, the `vector[1]` index
panics (modelled by `none`); and `Id::new` stores any names verbatim,
rejecting neither empty entity nor empty domain names. -/
theorem claim_c10_id_from_split :
    (∀ s : List Char, '@' ∈ s →
      Iroha.Id.from_string s =
        some { entity_name := s.takeWhile (fun ch => ch != '@'),
               domain_name :=
                 ((s.dropWhile (fun ch => ch != '@')).tail).takeWhile
                   (fun ch => ch != '@') }) ∧
    (∀ s : List Char, '@' ∉ s → Iroha.Id.from_string s = none) ∧
    (∀ e d : List Char, Iroha.Id.new e d = { entity_name := e, domain_name := d }) := by
  refine ⟨?_, ?_, fun e d => rfl⟩
  · intro s hs
    unfold Iroha.Id.from_string
    rw [split_char_eq, if_pos hs, split_char_eq]
  · intro s hs
    unfold Iroha.Id.from_string
    rw [split_char_eq, if_neg hs]

/-- C10 witness: `"gold@mine@x"` parses to `gold` and `mine` with the tail
dropped, `"gold"` hits the panic case, and `Id::new` accepts empty names. -/
theorem claim_c10_witness :
    Iroha.Id.from_string ['g', 'o', 'l', 'd', '@', 'm', 'i', 'n', 'e', '@', 'x'] =
      some { entity_name := ['g', 'o', 'l', 'd'], domain_name := ['m', 'i', 'n', 'e'] } ∧
    Iroha.Id.from_string ['g', 'o', 'l', 'd'] = none ∧
    Iroha.Id.new [] [] = { entity_name := [], domain_name := [] } := by
  refine ⟨?_, claim_c10_id_from_split.2.1 ['g', 'o', 'l', 'd'] (by decide),
    claim_c10_id_from_split.2.2 [] []⟩
  exact (claim_c10_id_from_split.1 ['g', 'o', 'l', 'd', '@', 'm', 'i', 'n', 'e', '@', 'x']
    (by decide)).trans (by decide)
